import Mathlib

/-!
Shallow embedding of the Apollo side-pass scenario stage logic
(`modules/planning/scenarios/side_pass/side_pass_stage.cc`), with theorems
about the five stage `Process` functions: `SidePassBackup`,
`SidePassApproachObstacle`, `SidePassGeneratePath`, `SidePassDetectSafety`,
and `SidePassPassObstacle`.

Doubles are modelled as exact rationals (all arithmetic in the source is a
handful of additions, subtractions, `min`/`max` and comparisons, exact on
the inputs we quantify over).  External collaborators (the reference line,
the optimizer `PlanningOnReferenceLine`, the frenet update/trim of
`PathData`) are modelled as oracle fields of the per-cycle `Scene`: the
stage code only branches on their results.  Each `Process` returns a
`StepResult` recording the `Stage::StageStatus`, the `next_stage_` directive
written during the call (if any), and the observable frame effects (whether
the planner was invoked, what was written to the context's `path_data_`,
and whether the frame's working path / debug sink were touched).
-/

namespace SidePass

/-- `Stage::StageStatus` values used by this file (READY is never produced). -/
inductive StageStatus where
  | ERROR
  | RUNNING
  | FINISHED
deriving DecidableEq, Repr

/-- The `ScenarioConfig::StageType` directives that side-pass stages write to
`next_stage_`. -/
inductive StageType where
  | NO_STAGE
  | SIDE_PASS_BACKUP
  | SIDE_PASS_APPROACH_OBSTACLE
  | SIDE_PASS_GENERATE_PATH
  | SIDE_PASS_STOP_ON_WAITPOINT
  | SIDE_PASS_PASS_OBSTACLE
deriving DecidableEq, Repr

/-- An `SLBoundary`: curvilinear (station / lateral) bounding box. -/
structure SLBoundary where
  start_s : ℚ
  end_s : ℚ
  start_l : ℚ
  end_l : ℚ
deriving DecidableEq, Repr

/-- A cartesian path point (only `x`, `y` are read by this code). -/
structure PathPoint where
  x : ℚ
  y : ℚ
deriving DecidableEq, Repr

/-- The discretized path stored in `PathData`, as its point list. -/
abbrev PathData := List PathPoint

/-- `DiscretizedPath::EndPoint()`: the last point of the path (the source
CHECKs non-emptiness; we return a zero point on the empty path, which the
theorems never rely on). -/
def endPoint (pd : PathData) : PathPoint :=
  pd.getLastD ⟨0, 0⟩

/-- The per-obstacle data this code reads: `Id()`, `IsVirtual()`,
`IsStatic()`, `speed()`, `PerceptionSLBoundary()`, and the result of
`reference_line.HasOverlap(PerceptionBoundingBox())` (an oracle for the
cartesian overlap test of the road-geometry service). -/
structure Obstacle where
  id : String
  isVirtual : Bool
  isStatic : Bool
  speed : ℚ
  sl : SLBoundary
  overlapsRoad : Bool
deriving DecidableEq, Repr

/-- The tunable thresholds read from `GetContext()->scenario_config_`. -/
structure ScenarioConfig where
  block_obstacle_min_speed : ℚ
  approach_obstacle_max_stop_speed : ℚ
  approach_obstacle_min_stop_distance : ℚ
  side_pass_exit_distance : ℚ
deriving DecidableEq, Repr

/-- One cycle's inputs: the scene snapshot plus oracles for the external
collaborators.  `laneWidth s` is `reference_line.GetLaneWidth(s, ...)`;
`plan_ok` is the result of `PlanningOnReferenceLine`; `trajectory_num_points`
and `replanned_path_data` are what `frame->reference_line_info().front()`
holds after a successful replan; `update_success` / `trim_success` are the
results of `PathData::UpdateFrenetFramePath` / `PathData::LeftTrimWithRefS`
with `updated_path` the context path after those calls; `xy_to_sl p` is
`reference_line.XYToSL(p, &sl_point)` (`none` on conversion failure). -/
structure Scene where
  adc_sl_boundary : SLBoundary
  obstacles : List Obstacle
  adc_velocity : ℚ
  laneWidth : ℚ → ℚ × ℚ
  nudge_l_buffer : ℚ
  config : ScenarioConfig
  plan_ok : Bool
  trajectory_num_points : Nat
  replanned_path_data : PathData
  update_success : Bool
  trim_success : Bool
  updated_path : PathData
  xy_to_sl : PathPoint → Option (ℚ × ℚ)

/-- What one `Process` call returns and does: the returned status, the
`next_stage_` directive written during the call (`none` when the field was
left untouched), whether `PlanningOnReferenceLine` was invoked, the write
to the context's `path_data_` (`none` when unchanged), and whether the
frame's working path and debug sink were written. -/
structure StepResult where
  status : StageStatus
  next_stage : Option StageType
  replan_invoked : Bool
  ctx_path_written : Option PathData
  frame_written : Bool
deriving DecidableEq, Repr

/-- `driving_width` as computed by `SidePassBackup::Process` (lines 82-87):
`min(lane_left_width + lane_right_width, max(lane_left_width - end_l,
lane_right_width + start_l)) - FLAGS_static_decision_nudge_l_buffer`. -/
def drivingWidth (lane_left_width lane_right_width start_l end_l nudge : ℚ) : ℚ :=
  min (lane_left_width + lane_right_width)
      (max (lane_left_width - end_l) (lane_right_width + start_l)) - nudge

/-- The loop body of `SidePassBackup::Process` (lines 54-95): does this
obstacle set `has_blocking_obstacle`?  Mirrors each `continue` guard. -/
def backupObstacleBlocking (sc : Scene) (ob : Obstacle) : Bool :=
  if ob.isVirtual || !ob.isStatic then false
  else if ob.speed > sc.config.block_obstacle_min_speed then false
  else if ob.sl.start_s ≤ sc.adc_sl_boundary.end_s then false
  else if ob.sl.start_s > sc.adc_sl_boundary.end_s + 15 then false
  else if drivingWidth (sc.laneWidth ob.sl.start_s).1 (sc.laneWidth ob.sl.start_s).2
      ob.sl.start_l ob.sl.end_l sc.nudge_l_buffer > 3/10 then false
  else true

/-- `SidePassBackup::Process` (lines 45-110). -/
def SidePassBackup.Process (sc : Scene) : StepResult :=
  if !(sc.obstacles.any (backupObstacleBlocking sc)) then
    ⟨.FINISHED, some .NO_STAGE, false, none, false⟩
  else if !sc.plan_ok then
    ⟨.ERROR, none, true, none, false⟩
  else
    ⟨.RUNNING, none, true, none, false⟩

/-- The first loop of `SidePassApproachObstacle::Process` (lines 125-149):
same guards as the backup filter except the lateral test, which is the
corridor check `start_l ≤ 1 ∧ end_l ≥ -1` (line 144-146 skips the obstacle
when `start_l > 1.0 || end_l < -1.0`). -/
def approachObstacleBlocking (sc : Scene) (ob : Obstacle) : Bool :=
  if ob.isVirtual || !ob.isStatic then false
  else if ob.speed > sc.config.block_obstacle_min_speed then false
  else if ob.sl.start_s ≤ sc.adc_sl_boundary.end_s then false
  else if ob.sl.start_s > sc.adc_sl_boundary.end_s + 15 then false
  else if ob.sl.start_l > 1 || ob.sl.end_l < -1 then false
  else true

/-- One step of the `front_obstacle_distance` loop of
`SidePassApproachObstacle::Process` (lines 168-188). -/
def frontObstacleStep (sc : Scene) (d : ℚ) (ob : Obstacle) : ℚ :=
  if ob.isVirtual then d
  else if !ob.overlapsRoad then d
  else if ob.sl.end_s ≤ sc.adc_sl_boundary.start_s then d
  else if ob.sl.start_s - sc.adc_sl_boundary.end_s < d then
    ob.sl.start_s - sc.adc_sl_boundary.end_s
  else d

/-- `front_obstacle_distance` of `SidePassApproachObstacle::Process`
(lines 167-188): fold of `frontObstacleStep` starting from the sentinel
`1000`. -/
def frontObstacleDistance (sc : Scene) : ℚ :=
  sc.obstacles.foldl (frontObstacleStep sc) 1000

/-- `SidePassApproachObstacle::Process` (lines 116-208). -/
def SidePassApproachObstacle.Process (sc : Scene) : StepResult :=
  if !(sc.obstacles.any (approachObstacleBlocking sc)) then
    ⟨.FINISHED, some .NO_STAGE, false, none, false⟩
  else if !sc.plan_ok then
    ⟨.ERROR, none, true, none, false⟩
  else if frontObstacleDistance sc < 0 then
    ⟨.ERROR, none, true, none, false⟩
  else if sc.adc_velocity < sc.config.approach_obstacle_max_stop_speed ∧
      frontObstacleDistance sc > sc.config.approach_obstacle_min_stop_distance then
    ⟨.FINISHED, some .SIDE_PASS_GENERATE_PATH, true, none, false⟩
  else
    ⟨.RUNNING, none, true, none, false⟩

/-- `SidePassGeneratePath::Process` (lines 214-227).  On replan failure it
degrades to `SIDE_PASS_BACKUP` (FINISHED).  On success it always stores the
frame's path data into `GetContext()->path_data_` (line 221 runs before the
trajectory-size test), then finishes to `SIDE_PASS_STOP_ON_WAITPOINT` when
the trajectory is non-empty and otherwise keeps RUNNING. -/
def SidePassGeneratePath.Process (sc : Scene) : StepResult :=
  if !sc.plan_ok then
    ⟨.FINISHED, some .SIDE_PASS_BACKUP, true, none, false⟩
  else if sc.trajectory_num_points > 0 then
    ⟨.FINISHED, some .SIDE_PASS_STOP_ON_WAITPOINT, true, some sc.replanned_path_data, false⟩
  else
    ⟨.RUNNING, none, true, some sc.replanned_path_data, false⟩

/-- The per-obstacle test of the `is_safe` loop in
`SidePassDetectSafety::Process` (lines 276-283): a virtual obstacle whose
id starts with `"SP_"` (the side-pass marker tag, `Id().substr(0, 3)`) and
whose `start_s` is at or beyond the ADC front edge. -/
def spMarkerBlocking (sc : Scene) (ob : Obstacle) : Bool :=
  ob.isVirtual && ob.id.take 3 == "SP_" &&
    decide (ob.sl.start_s ≥ sc.adc_sl_boundary.end_s)

/-- `SidePassDetectSafety::Process` (lines 234-289): frenet update and trim
of the stored path (ERROR on failure), install into the frame plus debug
recording, replan (ERROR on failure), then the `is_safe` scan. -/
def SidePassDetectSafety.Process (sc : Scene) : StepResult :=
  if !sc.update_success then
    ⟨.ERROR, none, false, none, false⟩
  else if !sc.trim_success then
    ⟨.ERROR, none, false, some sc.updated_path, false⟩
  else if !sc.plan_ok then
    ⟨.ERROR, none, true, some sc.updated_path, true⟩
  else if sc.obstacles.any (spMarkerBlocking sc) then
    ⟨.RUNNING, none, true, some sc.updated_path, true⟩
  else
    ⟨.FINISHED, some .SIDE_PASS_PASS_OBSTACLE, true, some sc.updated_path, true⟩

/-- `SidePassPassObstacle::Process` (lines 295-360): frenet update and trim
of the stored path (ERROR on failure), install plus debug recording, replan
(ERROR on failure), then the exit test on the frenet station of the path's
end point (`XYToSL` failure is ERROR). -/
def SidePassPassObstacle.Process (sc : Scene) : StepResult :=
  if !sc.update_success then
    ⟨.ERROR, none, false, none, false⟩
  else if !sc.trim_success then
    ⟨.ERROR, none, false, some sc.updated_path, false⟩
  else if !sc.plan_ok then
    ⟨.ERROR, none, true, some sc.updated_path, true⟩
  else
    match sc.xy_to_sl (endPoint sc.replanned_path_data) with
    | none => ⟨.ERROR, none, true, some sc.updated_path, true⟩
    | some sl_point =>
      if sc.adc_sl_boundary.end_s > sl_point.1 - sc.config.side_pass_exit_distance ∨
          sc.adc_velocity < sc.config.approach_obstacle_max_stop_speed then
        ⟨.FINISHED, some .NO_STAGE, true, some sc.updated_path, true⟩
      else
        ⟨.RUNNING, none, true, some sc.updated_path, true⟩

end SidePass

namespace SidePass

/-- A baseline scene (the spec's worked scenario: one static obstacle ahead
with driving width 1.0, lanes 1.8/1.8, nudge buffer 0.3) from which the
concrete scenes of the witnesses below are built by updating fields. -/
def baseScene : Scene :=
  { adc_sl_boundary := ⟨-4, 0, -1, 1⟩
    obstacles := [⟨"O1", false, true, 0, ⟨10, 14, -1/2, 2⟩, true⟩]
    adc_velocity := 0
    laneWidth := fun _ => (9/5, 9/5)
    nudge_l_buffer := 3/10
    config := ⟨1, 2, 5, 3⟩
    plan_ok := true
    trajectory_num_points := 0
    replanned_path_data := []
    update_success := true
    trim_success := true
    updated_path := []
    xy_to_sl := fun _ => none }

/-- C1: the phase state machine's next-phase directives are confined to the
spec's transition table, for every scene: `GENERATE_PATH` writes exactly
`SIDE_PASS_STOP_ON_WAITPOINT` (the detect-safety stage) on a successful
replan with a non-empty trajectory and exactly `SIDE_PASS_BACKUP` on replan
failure; `DETECT_SAFETY` writes exactly `SIDE_PASS_PASS_OBSTACLE` when the
hand-off and replan succeed and no unsafe marker is found, and no directive
otherwise (it keeps RUNNING in itself); `BACKUP` and `PASS_OBSTACLE` write
at most `NO_STAGE`; `APPROACH_OBSTACLE` writes at most `NO_STAGE` or
`SIDE_PASS_GENERATE_PATH`. -/
theorem transition_directives_confined (sc : Scene) :
    ((SidePassGeneratePath.Process sc).next_stage =
      if sc.plan_ok = false then some StageType.SIDE_PASS_BACKUP
      else if 0 < sc.trajectory_num_points then some StageType.SIDE_PASS_STOP_ON_WAITPOINT
      else none)
  ∧ ((SidePassDetectSafety.Process sc).next_stage =
      if sc.update_success = true ∧ sc.trim_success = true ∧ sc.plan_ok = true ∧
          sc.obstacles.any (spMarkerBlocking sc) = false
      then some StageType.SIDE_PASS_PASS_OBSTACLE else none)
  ∧ ((SidePassBackup.Process sc).next_stage = none ∨
     (SidePassBackup.Process sc).next_stage = some StageType.NO_STAGE)
  ∧ ((SidePassApproachObstacle.Process sc).next_stage = none ∨
     (SidePassApproachObstacle.Process sc).next_stage = some StageType.NO_STAGE ∨
     (SidePassApproachObstacle.Process sc).next_stage = some StageType.SIDE_PASS_GENERATE_PATH)
  ∧ ((SidePassPassObstacle.Process sc).next_stage = none ∨
     (SidePassPassObstacle.Process sc).next_stage = some StageType.NO_STAGE) := by
  refine ⟨?_, ?_, ?_, ?_, ?_⟩
  · simp only [SidePassGeneratePath.Process]
    split_ifs <;> simp_all
  · simp only [SidePassDetectSafety.Process]
    split_ifs <;> simp_all
  · simp only [SidePassBackup.Process]
    split_ifs <;> simp
  · simp only [SidePassApproachObstacle.Process]
    split_ifs <;> simp
  · simp only [SidePassPassObstacle.Process]
    split_ifs <;> try simp
    rcases h : sc.xy_to_sl (endPoint sc.replanned_path_data) with _ | p <;> simp [h]
    split_ifs <;> simp

/-- A scene for `GENERATE_PATH` where the replan succeeds, the trajectory is
empty, and the frame's re-planned path is the one-point path `[(1, 2)]`. -/
def genEmptyTrajScene : Scene :=
  { baseScene with plan_ok := true, trajectory_num_points := 0,
                   replanned_path_data := [⟨1, 2⟩] }

/-- C2 counterexample: in `GENERATE_PATH` with a successful replan and an
empty trajectory the stage returns RUNNING, yet the context's `path_data_`
IS overwritten (line 221 runs before the trajectory-size test) — refuting
the claim that `active_path` is stored only in the at-least-one-point case
and left unchanged in the RUNNING case. -/
theorem generate_path_stores_on_empty_trajectory :
    (SidePassGeneratePath.Process genEmptyTrajScene).status = StageStatus.RUNNING ∧
    (SidePassGeneratePath.Process genEmptyTrajScene).ctx_path_written =
      some [⟨1, 2⟩] := by
  constructor <;> rfl

/-- C2 (amended): `GENERATE_PATH` behaviour for every scene — replan failure
gives FINISHED with directive `SIDE_PASS_BACKUP` (never ERROR) and leaves
the context path unchanged; a successful replan always stores the frame's
path data into the context (also when the trajectory is empty), finishing
to the detect-safety stage when the trajectory has at least one point and
returning RUNNING otherwise. -/
theorem generate_path_characterization (sc : Scene) :
    SidePassGeneratePath.Process sc =
      if sc.plan_ok = false then
        ⟨StageStatus.FINISHED, some StageType.SIDE_PASS_BACKUP, true, none, false⟩
      else if 0 < sc.trajectory_num_points then
        ⟨StageStatus.FINISHED, some StageType.SIDE_PASS_STOP_ON_WAITPOINT, true,
          some sc.replanned_path_data, false⟩
      else
        ⟨StageStatus.RUNNING, none, true, some sc.replanned_path_data, false⟩ := by
  simp only [SidePassGeneratePath.Process]
  split_ifs <;> simp_all

/-- C3: in `PASS_OBSTACLE`, once the hand-off (frenet update + trim) and the
replan succeed, a failing cartesian→frenet conversion of the path's end
point gives ERROR; otherwise the stage finishes to `NO_STAGE` exactly when
the ADC end-station exceeds the end point's station minus the exit margin,
or the ADC speed is below the approach stop speed, and returns RUNNING in
every other case. -/
theorem pass_obstacle_exit_condition (sc : Scene)
    (hu : sc.update_success = true) (ht : sc.trim_success = true)
    (hp : sc.plan_ok = true) :
    (sc.xy_to_sl (endPoint sc.replanned_path_data) = none →
      (SidePassPassObstacle.Process sc).status = StageStatus.ERROR)
  ∧ (∀ s l, sc.xy_to_sl (endPoint sc.replanned_path_data) = some (s, l) →
      (((SidePassPassObstacle.Process sc).status = StageStatus.FINISHED ∧
        (SidePassPassObstacle.Process sc).next_stage = some StageType.NO_STAGE) ↔
        (sc.adc_sl_boundary.end_s > s - sc.config.side_pass_exit_distance ∨
         sc.adc_velocity < sc.config.approach_obstacle_max_stop_speed))
      ∧ (¬(sc.adc_sl_boundary.end_s > s - sc.config.side_pass_exit_distance ∨
            sc.adc_velocity < sc.config.approach_obstacle_max_stop_speed) →
          (SidePassPassObstacle.Process sc).status = StageStatus.RUNNING)) := by
  constructor
  · intro hxy
    simp [SidePassPassObstacle.Process, hu, ht, hp, hxy]
  · intro s l hxy
    have hProc : SidePassPassObstacle.Process sc =
        if sc.adc_sl_boundary.end_s > s - sc.config.side_pass_exit_distance ∨
            sc.adc_velocity < sc.config.approach_obstacle_max_stop_speed then
          ⟨StageStatus.FINISHED, some StageType.NO_STAGE, true, some sc.updated_path, true⟩
        else
          ⟨StageStatus.RUNNING, none, true, some sc.updated_path, true⟩ := by
      simp [SidePassPassObstacle.Process, hu, ht, hp, hxy]
    rw [hProc]
    constructor
    · split_ifs with hcond
      · exact iff_of_true ⟨rfl, rfl⟩ hcond
      · exact iff_of_false (by simp) hcond
    · intro hneg
      rw [if_neg hneg]

/-- The spec's `PASS_OBSTACLE` scenario: ADC end-station 53, path end-point
station 55, exit margin 3, ADC speed 5 (not below the stop speed 2). -/
def passExitScene : Scene :=
  { baseScene with
      adc_sl_boundary := ⟨49, 53, -1, 1⟩
      adc_velocity := 5
      replanned_path_data := [⟨100, 200⟩]
      xy_to_sl := fun _ => some (55, 0) }

theorem pass_obstacle_exit_condition_witness :
    (SidePassPassObstacle.Process passExitScene).status = StageStatus.FINISHED ∧
    (SidePassPassObstacle.Process passExitScene).next_stage =
      some StageType.NO_STAGE := by
  have h := pass_obstacle_exit_condition passExitScene rfl rfl rfl
  exact ((h.2 55 0 rfl).1).mpr (by norm_num [passExitScene, baseScene])

/-- Unfolded characterization of the backup blocking filter. -/
lemma backupObstacleBlocking_eq_true (sc : Scene) (ob : Obstacle) :
    backupObstacleBlocking sc ob = true ↔
      ob.isVirtual = false ∧ ob.isStatic = true ∧
      ob.speed ≤ sc.config.block_obstacle_min_speed ∧
      sc.adc_sl_boundary.end_s < ob.sl.start_s ∧
      ob.sl.start_s ≤ sc.adc_sl_boundary.end_s + 15 ∧
      drivingWidth (sc.laneWidth ob.sl.start_s).1 (sc.laneWidth ob.sl.start_s).2
        ob.sl.start_l ob.sl.end_l sc.nudge_l_buffer ≤ 3/10 := by
  unfold backupObstacleBlocking
  split_ifs with g1 g2 g3 g4 g5
  · simp only [Bool.or_eq_true, Bool.not_eq_true'] at g1
    refine ⟨fun h => absurd h (by simp), ?_⟩
    rintro ⟨h1, h2, -⟩
    rcases g1 with g | g
    · rw [h1] at g; exact Bool.noConfusion g
    · rw [h2] at g; exact Bool.noConfusion g
  · refine ⟨fun h => absurd h (by simp), ?_⟩
    rintro ⟨-, -, h3, -⟩
    exact absurd g2 (not_lt.mpr h3)
  · refine ⟨fun h => absurd h (by simp), ?_⟩
    rintro ⟨-, -, -, h4, -⟩
    exact absurd g3 (not_le.mpr h4)
  · refine ⟨fun h => absurd h (by simp), ?_⟩
    rintro ⟨-, -, -, -, h5, -⟩
    exact absurd g4 (not_lt.mpr h5)
  · refine ⟨fun h => absurd h (by simp), ?_⟩
    rintro ⟨-, -, -, -, -, h6⟩
    exact absurd g5 (not_lt.mpr h6)
  · simp only [Bool.or_eq_true, Bool.not_eq_true', not_or, Bool.not_eq_true,
      Bool.not_eq_false] at g1
    exact ⟨fun _ => ⟨g1.1, g1.2, not_lt.mp g2, not_le.mp g3, not_lt.mp g4, not_lt.mp g5⟩,
           fun _ => rfl⟩

/-- Unfolded characterization of the approach-obstacle corridor filter. -/
lemma approachObstacleBlocking_eq_true (sc : Scene) (ob : Obstacle) :
    approachObstacleBlocking sc ob = true ↔
      ob.isVirtual = false ∧ ob.isStatic = true ∧
      ob.speed ≤ sc.config.block_obstacle_min_speed ∧
      sc.adc_sl_boundary.end_s < ob.sl.start_s ∧
      ob.sl.start_s ≤ sc.adc_sl_boundary.end_s + 15 ∧
      ob.sl.start_l ≤ 1 ∧ -1 ≤ ob.sl.end_l := by
  unfold approachObstacleBlocking
  split_ifs with g1 g2 g3 g4 g5
  · simp only [Bool.or_eq_true, Bool.not_eq_true'] at g1
    refine ⟨fun h => absurd h (by simp), ?_⟩
    rintro ⟨h1, h2, -⟩
    rcases g1 with g | g
    · rw [h1] at g; exact Bool.noConfusion g
    · rw [h2] at g; exact Bool.noConfusion g
  · refine ⟨fun h => absurd h (by simp), ?_⟩
    rintro ⟨-, -, h3, -⟩
    exact absurd g2 (not_lt.mpr h3)
  · refine ⟨fun h => absurd h (by simp), ?_⟩
    rintro ⟨-, -, -, h4, -⟩
    exact absurd g3 (not_le.mpr h4)
  · refine ⟨fun h => absurd h (by simp), ?_⟩
    rintro ⟨-, -, -, -, h5, -⟩
    exact absurd g4 (not_lt.mpr h5)
  · simp only [Bool.or_eq_true, decide_eq_true_eq] at g5
    refine ⟨fun h => absurd h (by simp), ?_⟩
    rintro ⟨-, -, -, -, -, h6, h7⟩
    rcases g5 with g | g
    · exact absurd g (not_lt.mpr h6)
    · exact absurd g (not_lt.mpr h7)
  · simp only [Bool.or_eq_true, Bool.not_eq_true', not_or, Bool.not_eq_true,
      Bool.not_eq_false] at g1
    simp only [Bool.or_eq_true, decide_eq_true_eq, not_or] at g5
    exact ⟨fun _ => ⟨g1.1, g1.2, not_lt.mp g2, not_le.mp g3, not_lt.mp g4,
             not_lt.mp g5.1, not_lt.mp g5.2⟩,
           fun _ => rfl⟩

/-- The obstacle of the spec's worked scenario (and of `baseScene`). -/
def scenarioObstacle : Obstacle :=
  ⟨"O1", false, true, 0, ⟨10, 14, -1/2, 2⟩, true⟩

/-- C4 counterexample: the spec's own worked scenario (obstacle
`start_l = -0.5, end_l = 2.0`, lanes `1.8/1.8`, nudge buffer `0.3`) passes
every precondition of the backup filter, its driving width `1.0` EXCEEDS
the `0.3` threshold, and the code classifies it as NOT blocking — refuting
the claim that an obstacle is a lateral blocker when the driving width
exceeds the threshold. -/
theorem backup_blocker_threshold_counterexample :
    baseScene.obstacles = [scenarioObstacle] ∧
    (scenarioObstacle.isVirtual = false ∧
     scenarioObstacle.isStatic = true ∧
     scenarioObstacle.speed ≤ baseScene.config.block_obstacle_min_speed ∧
     baseScene.adc_sl_boundary.end_s < scenarioObstacle.sl.start_s ∧
     scenarioObstacle.sl.start_s ≤ baseScene.adc_sl_boundary.end_s + 15) ∧
    drivingWidth (baseScene.laneWidth scenarioObstacle.sl.start_s).1
      (baseScene.laneWidth scenarioObstacle.sl.start_s).2
      scenarioObstacle.sl.start_l scenarioObstacle.sl.end_l
      baseScene.nudge_l_buffer = 1 ∧
    (1 : ℚ) > 3/10 ∧
    backupObstacleBlocking baseScene scenarioObstacle = false := by
  norm_num [baseScene, scenarioObstacle, backupObstacleBlocking, drivingWidth]

/-- C4 (amended): for an obstacle that passes the backup filter's
preconditions, the filter classifies it as a lateral blocker exactly when
the residual driving width does NOT exceed the 0.3 m buffer threshold
(driving width ≤ 0.3). -/
theorem backup_blocker_iff_narrow_width (sc : Scene) (ob : Obstacle)
    (h1 : ob.isVirtual = false) (h2 : ob.isStatic = true)
    (h3 : ob.speed ≤ sc.config.block_obstacle_min_speed)
    (h4 : sc.adc_sl_boundary.end_s < ob.sl.start_s)
    (h5 : ob.sl.start_s ≤ sc.adc_sl_boundary.end_s + 15) :
    backupObstacleBlocking sc ob = true ↔
      drivingWidth (sc.laneWidth ob.sl.start_s).1 (sc.laneWidth ob.sl.start_s).2
        ob.sl.start_l ob.sl.end_l sc.nudge_l_buffer ≤ 3/10 := by
  rw [backupObstacleBlocking_eq_true]
  simp [h1, h2, h3, h4, h5]

/-- The blocking variant of the worked scenario: both lane widths shrunk
to 0.6, making the driving width `0.1 - 0.3 = -0.2 ≤ 0.3`. -/
def narrowLaneScene : Scene :=
  { baseScene with laneWidth := fun _ => (3/5, 3/5) }

theorem backup_blocker_iff_narrow_width_witness :
    backupObstacleBlocking narrowLaneScene
      ⟨"O1", false, true, 0, ⟨10, 14, -1/2, 2⟩, true⟩ = true := by
  have h := backup_blocker_iff_narrow_width narrowLaneScene
    ⟨"O1", false, true, 0, ⟨10, 14, -1/2, 2⟩, true⟩
    rfl rfl (by norm_num [narrowLaneScene, baseScene])
    (by norm_num [narrowLaneScene, baseScene])
    (by norm_num [narrowLaneScene, baseScene])
  exact h.mpr (by norm_num [narrowLaneScene, baseScene, drivingWidth])

/-- C5: in `APPROACH_OBSTACLE`, once a blocking obstacle was found, the
replan succeeded, and the nearest-ahead distance is non-negative, the stage
finishes with directive `SIDE_PASS_GENERATE_PATH` exactly when the ADC
speed is strictly below the approach stop speed AND the distance strictly
exceeds the minimum stop distance; in every other case it returns RUNNING. -/
theorem approach_obstacle_stop_condition (sc : Scene)
    (hb : sc.obstacles.any (approachObstacleBlocking sc) = true)
    (hp : sc.plan_ok = true)
    (hd : 0 ≤ frontObstacleDistance sc) :
    (((SidePassApproachObstacle.Process sc).status = StageStatus.FINISHED ∧
      (SidePassApproachObstacle.Process sc).next_stage =
        some StageType.SIDE_PASS_GENERATE_PATH) ↔
      (sc.adc_velocity < sc.config.approach_obstacle_max_stop_speed ∧
       frontObstacleDistance sc > sc.config.approach_obstacle_min_stop_distance))
  ∧ (¬(sc.adc_velocity < sc.config.approach_obstacle_max_stop_speed ∧
        frontObstacleDistance sc > sc.config.approach_obstacle_min_stop_distance) →
      (SidePassApproachObstacle.Process sc).status = StageStatus.RUNNING) := by
  have hProc : SidePassApproachObstacle.Process sc =
      if sc.adc_velocity < sc.config.approach_obstacle_max_stop_speed ∧
          frontObstacleDistance sc > sc.config.approach_obstacle_min_stop_distance then
        ⟨StageStatus.FINISHED, some StageType.SIDE_PASS_GENERATE_PATH, true, none, false⟩
      else
        ⟨StageStatus.RUNNING, none, true, none, false⟩ := by
    simp [SidePassApproachObstacle.Process, hb, hp, not_lt.mpr hd]
  rw [hProc]
  constructor
  · split_ifs with hcond
    · exact iff_of_true ⟨rfl, rfl⟩ hcond
    · exact iff_of_false (by simp) hcond
  · intro hneg
    rw [if_neg hneg]

/-- The spec's `APPROACH_OBSTACLE` scenario: ADC speed 1 (below the stop
speed 2), blocking obstacle 6 m ahead (above the minimum stop distance 5). -/
def approachStopScene : Scene :=
  { baseScene with
      obstacles := [⟨"O1", false, true, 0, ⟨6, 8, -1/2, 1/2⟩, true⟩]
      adc_velocity := 1 }

theorem approach_obstacle_stop_condition_witness :
    (SidePassApproachObstacle.Process approachStopScene).status =
      StageStatus.FINISHED ∧
    (SidePassApproachObstacle.Process approachStopScene).next_stage =
      some StageType.SIDE_PASS_GENERATE_PATH := by
  have hb : approachStopScene.obstacles.any
      (approachObstacleBlocking approachStopScene) = true := by
    norm_num [approachStopScene, baseScene, approachObstacleBlocking, List.any]
  have hd : (0 : ℚ) ≤ frontObstacleDistance approachStopScene := by
    norm_num [frontObstacleDistance, frontObstacleStep, approachStopScene, baseScene]
  have h := approach_obstacle_stop_condition approachStopScene hb rfl hd
  exact h.1.mpr (by
    norm_num [approachStopScene, baseScene, frontObstacleDistance, frontObstacleStep])

/-- C8: an obstacle that is virtual, or non-static, or faster than the
blocking speed cutoff, or behind the ego (start-station not greater than
the ADC end-station), or beyond the 15 m forward window, is never
classified as blocking by the backup filter or the approach corridor
filter, whatever its lateral position. -/
theorem blocking_filters_conservative (sc : Scene) (ob : Obstacle)
    (h : ob.isVirtual = true ∨ ob.isStatic = false ∨
         ob.speed > sc.config.block_obstacle_min_speed ∨
         ob.sl.start_s ≤ sc.adc_sl_boundary.end_s ∨
         ob.sl.start_s > sc.adc_sl_boundary.end_s + 15) :
    backupObstacleBlocking sc ob = false ∧
    approachObstacleBlocking sc ob = false := by
  constructor
  · cases hv : backupObstacleBlocking sc ob
    · rfl
    · exfalso
      rcases (backupObstacleBlocking_eq_true sc ob).mp hv with ⟨a1, a2, a3, a4, a5, -⟩
      rcases h with h | h | h | h | h
      · rw [a1] at h; exact Bool.noConfusion h
      · rw [a2] at h; exact Bool.noConfusion h
      · exact absurd h (not_lt.mpr a3)
      · exact absurd h (not_le.mpr a4)
      · exact absurd h (not_lt.mpr a5)
  · cases hv : approachObstacleBlocking sc ob
    · rfl
    · exfalso
      rcases (approachObstacleBlocking_eq_true sc ob).mp hv with ⟨a1, a2, a3, a4, a5, -⟩
      rcases h with h | h | h | h | h
      · rw [a1] at h; exact Bool.noConfusion h
      · rw [a2] at h; exact Bool.noConfusion h
      · exact absurd h (not_lt.mpr a3)
      · exact absurd h (not_le.mpr a4)
      · exact absurd h (not_lt.mpr a5)

/-- A virtual side-pass marker obstacle, never blocking per C8. -/
def virtualMarkerObstacle : Obstacle :=
  ⟨"SP_DEST", true, true, 0, ⟨5, 6, 0, 0⟩, true⟩

theorem blocking_filters_conservative_witness :
    backupObstacleBlocking baseScene virtualMarkerObstacle = false ∧
    approachObstacleBlocking baseScene virtualMarkerObstacle = false :=
  blocking_filters_conservative baseScene virtualMarkerObstacle (Or.inl rfl)

/-- C9: the driving width is monotone non-decreasing in each lane width
(for fixed obstacle geometry and nudge buffer); consequently, narrowing
the lane widths of a scene never turns an obstacle that the backup filter
classifies as blocking into a non-blocking one. -/
theorem driving_width_monotone (start_l end_l nudge lwd rwd lwd2 rwd2 : ℚ)
    (hl : lwd ≤ lwd2) (hr : rwd ≤ rwd2) :
    drivingWidth lwd rwd start_l end_l nudge ≤
      drivingWidth lwd2 rwd2 start_l end_l nudge
  ∧ (∀ (sc : Scene) (f : ℚ → ℚ × ℚ) (ob : Obstacle),
      (f ob.sl.start_s).1 ≤ (sc.laneWidth ob.sl.start_s).1 →
      (f ob.sl.start_s).2 ≤ (sc.laneWidth ob.sl.start_s).2 →
      backupObstacleBlocking sc ob = true →
      backupObstacleBlocking { sc with laneWidth := f } ob = true) := by
  constructor
  · unfold drivingWidth
    exact sub_le_sub_right (min_le_min (add_le_add hl hr)
      (max_le_max (by linarith) (by linarith))) nudge
  · intro sc f ob hfl hfr hb
    rcases (backupObstacleBlocking_eq_true sc ob).mp hb with ⟨a1, a2, a3, a4, a5, a6⟩
    refine (backupObstacleBlocking_eq_true _ ob).mpr ⟨a1, a2, a3, a4, a5, ?_⟩
    have hmono : drivingWidth (f ob.sl.start_s).1 (f ob.sl.start_s).2
        ob.sl.start_l ob.sl.end_l sc.nudge_l_buffer ≤
        drivingWidth (sc.laneWidth ob.sl.start_s).1 (sc.laneWidth ob.sl.start_s).2
        ob.sl.start_l ob.sl.end_l sc.nudge_l_buffer := by
      unfold drivingWidth
      exact sub_le_sub_right (min_le_min (add_le_add hfl hfr)
        (max_le_max (by linarith) (by linarith))) _
    exact le_trans hmono a6

theorem driving_width_monotone_witness :
    drivingWidth (3/5) (3/5) (-1/2) 2 (3/10) ≤
      drivingWidth (9/5) (9/5) (-1/2) 2 (3/10) ∧
    backupObstacleBlocking
      { narrowLaneScene with laneWidth := fun _ => (1/2, 1/2) }
      scenarioObstacle = true := by
  have h := driving_width_monotone (-1/2) 2 (3/10) (3/5) (3/5) (9/5) (9/5)
    (by norm_num) (by norm_num)
  refine ⟨h.1, h.2 narrowLaneScene (fun _ => (1/2, 1/2)) scenarioObstacle
    (by norm_num [narrowLaneScene, baseScene, scenarioObstacle])
    (by norm_num [narrowLaneScene, baseScene, scenarioObstacle]) ?_⟩
  norm_num [backupObstacleBlocking, narrowLaneScene, baseScene, scenarioObstacle,
    drivingWidth]

/-- C10: when the entry filter of `BACKUP` (respectively
`APPROACH_OBSTACLE`) finds no blocking obstacle, the stage returns FINISHED
with directive `NO_STAGE` without invoking the planner, leaving the context
path, the frame's working path and the debug sink untouched. -/
theorem no_blocker_leaves_frame_unchanged (sc : Scene) :
    (sc.obstacles.any (backupObstacleBlocking sc) = false →
      SidePassBackup.Process sc =
        ⟨StageStatus.FINISHED, some StageType.NO_STAGE, false, none, false⟩)
  ∧ (sc.obstacles.any (approachObstacleBlocking sc) = false →
      SidePassApproachObstacle.Process sc =
        ⟨StageStatus.FINISHED, some StageType.NO_STAGE, false, none, false⟩) := by
  constructor
  · intro h
    simp [SidePassBackup.Process, h]
  · intro h
    simp [SidePassApproachObstacle.Process, h]

/-- A scene with no obstacles at all. -/
def noObstacleScene : Scene :=
  { baseScene with obstacles := [] }

theorem no_blocker_leaves_frame_unchanged_witness :
    SidePassBackup.Process noObstacleScene =
      ⟨StageStatus.FINISHED, some StageType.NO_STAGE, false, none, false⟩ ∧
    SidePassApproachObstacle.Process noObstacleScene =
      ⟨StageStatus.FINISHED, some StageType.NO_STAGE, false, none, false⟩ :=
  ⟨(no_blocker_leaves_frame_unchanged noObstacleScene).1 rfl,
   (no_blocker_leaves_frame_unchanged noObstacleScene).2 rfl⟩

/-- Does an obstacle qualify for the nearest-ahead distance scan (the guards
of the second loop, lines 168-182): non-virtual, bounding box overlapping
the road, end-station strictly beyond the ADC start-station — and if so,
its distance `start_s - adc.end_s`. -/
def nearestAheadQualDist (sc : Scene) (ob : Obstacle) : Option ℚ :=
  if ob.isVirtual = false ∧ ob.overlapsRoad = true ∧
      sc.adc_sl_boundary.start_s < ob.sl.end_s then
    some (ob.sl.start_s - sc.adc_sl_boundary.end_s)
  else none

/-- The nearest-ahead distance as the claim words it (spec §4.2): the
minimum of the qualifying distances, or the large sentinel 1000 when no
obstacle qualifies.  This is the spec-side definition, to be compared with
`frontObstacleDistance` (the code's fold). -/
def nearestAheadSpecDistance (sc : Scene) : ℚ :=
  match sc.obstacles.filterMap (nearestAheadQualDist sc) with
  | [] => 1000
  | v :: vs => vs.foldl min v

/-- `frontObstacleStep` in min-form. -/
lemma frontObstacleStep_min (sc : Scene) (d : ℚ) (ob : Obstacle) :
    frontObstacleStep sc d ob =
      match nearestAheadQualDist sc ob with
      | none => d
      | some v => min d v := by
  unfold frontObstacleStep nearestAheadQualDist
  by_cases g1 : ob.isVirtual = true
  · simp [g1]
  · rw [Bool.not_eq_true] at g1
    by_cases g2 : ob.overlapsRoad = true
    · by_cases g3 : ob.sl.end_s ≤ sc.adc_sl_boundary.start_s
      · simp [g1, g2, g3, not_lt.mpr g3]
      · simp [g1, g2, g3, not_le.mp g3]
        rw [min_def]
        split_ifs <;> linarith
    · rw [Bool.not_eq_true] at g2
      simp [g1, g2]

/-- The distance fold equals a `min`-fold over the qualifying distances. -/
lemma foldl_frontObstacleStep (sc : Scene) :
    ∀ (l : List Obstacle) (d : ℚ),
      l.foldl (frontObstacleStep sc) d =
        (l.filterMap (nearestAheadQualDist sc)).foldl min d := by
  intro l
  induction l with
  | nil => intro d; rfl
  | cons ob l ih =>
    intro d
    rw [List.foldl_cons, List.filterMap_cons]
    rcases hq : nearestAheadQualDist sc ob with _ | v
    · rw [frontObstacleStep_min, hq]
      exact ih d
    · rw [frontObstacleStep_min, hq, List.foldl_cons]
      exact ih (min d v)

/-- Folding `min` from a seed distributes over the seed. -/
lemma foldl_min_push (d : ℚ) : ∀ (l : List ℚ) (v : ℚ),
    l.foldl min (min d v) = min d (l.foldl min v) := by
  intro l
  induction l with
  | nil => intro v; rfl
  | cons a l ih =>
    intro v
    rw [List.foldl_cons, List.foldl_cons, min_assoc, ih]

/-- A qualifying obstacle 2000 m ahead: far beyond the 1000 sentinel. -/
def farObstacleScene : Scene :=
  { baseScene with
      adc_sl_boundary := ⟨0, 5, -1, 1⟩
      obstacles := [⟨"F1", false, true, 0, ⟨2005, 2010, 0, 1⟩, true⟩] }

/-- C6 counterexample: with one qualifying obstacle at distance 2000 the
claim's value (the minimum over qualifying obstacles, sentinel only when
none qualify) is 2000, but the code's fold starts at the sentinel 1000 and
takes the minimum WITH it, returning 1000 — so the computed distance does
not equal the claimed minimum. -/
theorem front_distance_sentinel_counterexample :
    nearestAheadSpecDistance farObstacleScene = 2000 ∧
    frontObstacleDistance farObstacleScene = 1000 := by
  constructor
  · norm_num [nearestAheadSpecDistance, nearestAheadQualDist, farObstacleScene,
      baseScene, List.filterMap_cons]
  · norm_num [frontObstacleDistance, frontObstacleStep, farObstacleScene, baseScene]

/-- C6 (amended): the computed nearest-ahead distance equals the minimum of
the sentinel 1000 and the spec's minimum over qualifying obstacles (so
distances beyond the sentinel are capped at 1000; with no qualifying
obstacle it is the sentinel); and whenever that value is negative — with a
blocking obstacle found and a successful replan, so the distance is
actually computed — the stage returns ERROR, the negative value never
being clamped. -/
theorem front_distance_characterization (sc : Scene)
    (hb : sc.obstacles.any (approachObstacleBlocking sc) = true)
    (hp : sc.plan_ok = true) :
    frontObstacleDistance sc = min 1000 (nearestAheadSpecDistance sc)
  ∧ (frontObstacleDistance sc < 0 →
      (SidePassApproachObstacle.Process sc).status = StageStatus.ERROR) := by
  constructor
  · rw [frontObstacleDistance, foldl_frontObstacleStep sc _ 1000,
      nearestAheadSpecDistance]
    rcases hfm : sc.obstacles.filterMap (nearestAheadQualDist sc) with _ | ⟨v, vs⟩
    · simp
    · rw [List.foldl_cons, show min (1000:ℚ) v = min 1000 v from rfl,
        foldl_min_push]
  · intro hneg
    simp [SidePassApproachObstacle.Process, hb, hp, hneg]

/-- A blocking obstacle 6 m ahead plus a straddling obstacle whose
start-station is 2 m behind the ADC front edge: computed distance -2. -/
def negDistScene : Scene :=
  { baseScene with
      obstacles := [⟨"O1", false, true, 0, ⟨6, 8, -1/2, 1/2⟩, true⟩,
                    ⟨"O2", false, true, 0, ⟨-2, -1, 0, 0⟩, true⟩] }

theorem front_distance_characterization_witness :
    frontObstacleDistance negDistScene =
      min 1000 (nearestAheadSpecDistance negDistScene) ∧
    (SidePassApproachObstacle.Process negDistScene).status = StageStatus.ERROR := by
  have hb : negDistScene.obstacles.any (approachObstacleBlocking negDistScene) = true := by
    norm_num [negDistScene, baseScene, approachObstacleBlocking, List.any]
  have h := front_distance_characterization negDistScene hb rfl
  exact ⟨h.1, h.2 (by
    norm_num [frontObstacleDistance, frontObstacleStep, negDistScene, baseScene])⟩

/-- C7: in `DETECT_SAFETY`, once the hand-off (frenet update + trim) and
the replan succeed, the path is marked unsafe exactly when some virtual
obstacle whose id begins with the reserved `"SP_"` prefix has its
start-station at or beyond the ADC front edge; with no such marker the
stage finishes with directive `SIDE_PASS_PASS_OBSTACLE`, with one it
returns RUNNING (no directive). -/
theorem detect_safety_characterization (sc : Scene)
    (hu : sc.update_success = true) (ht : sc.trim_success = true)
    (hp : sc.plan_ok = true) :
    (sc.obstacles.any (spMarkerBlocking sc) = true ↔
      ∃ ob ∈ sc.obstacles, ob.isVirtual = true ∧ ob.id.take 3 = "SP_" ∧
        sc.adc_sl_boundary.end_s ≤ ob.sl.start_s)
  ∧ (sc.obstacles.any (spMarkerBlocking sc) = false →
      (SidePassDetectSafety.Process sc).status = StageStatus.FINISHED ∧
      (SidePassDetectSafety.Process sc).next_stage =
        some StageType.SIDE_PASS_PASS_OBSTACLE)
  ∧ (sc.obstacles.any (spMarkerBlocking sc) = true →
      (SidePassDetectSafety.Process sc).status = StageStatus.RUNNING ∧
      (SidePassDetectSafety.Process sc).next_stage = none) := by
  refine ⟨?_, ?_, ?_⟩
  · simp [List.any_eq_true, spMarkerBlocking, Bool.and_eq_true, beq_iff_eq,
      decide_eq_true_eq, ge_iff_le, and_assoc]
  · intro h
    have hProc : SidePassDetectSafety.Process sc =
        ⟨StageStatus.FINISHED, some StageType.SIDE_PASS_PASS_OBSTACLE, true,
          some sc.updated_path, true⟩ := by
      simp [SidePassDetectSafety.Process, hu, ht, hp, h]
    rw [hProc]
    exact ⟨rfl, rfl⟩
  · intro h
    have hProc : SidePassDetectSafety.Process sc =
        ⟨StageStatus.RUNNING, none, true, some sc.updated_path, true⟩ := by
      simp [SidePassDetectSafety.Process, hu, ht, hp, h]
    rw [hProc]
    exact ⟨rfl, rfl⟩

/-- A scene whose only obstacle is a virtual `"SP_"`-tagged marker at or
beyond the ADC front edge. -/
def markerScene : Scene :=
  { baseScene with obstacles := [virtualMarkerObstacle] }

theorem detect_safety_characterization_witness :
    (SidePassDetectSafety.Process markerScene).status = StageStatus.RUNNING ∧
    (SidePassDetectSafety.Process markerScene).next_stage = none := by
  have h := detect_safety_characterization markerScene rfl rfl rfl
  exact h.2.2 rfl

end SidePass
